import Mathlib

/-!
Verification development for the DeskAI voice assistant core
(`voice_listener.py`, `execution_engine.py`, `main.py`).

The Python modules are shallowly embedded: pure control flow becomes Lean
functions, mutable object state becomes explicit state records passed and
returned, Python exceptions become `Except String` values that the embedded
`try/except` structure catches, and the OS side effects made by the
execution engine are recorded as an explicit list of `OSCall` values so the
theorems can state which OS primitives a code path touches.
-/

namespace DeskAI

/-! ### Substring containment (Python `needle in haystack` on strings) -/

/-- Containment of one character list in another, mirroring the semantics of
the Python `in` operator on strings. -/
def listContains (needle : List Char) : List Char → Bool
  | [] => needle.isEmpty
  | c :: rest => needle.isPrefixOf (c :: rest) || listContains needle rest

/-- Python `needle in hay` for strings. -/
def strContains (needle hay : String) : Bool :=
  listContains needle.toList hay.toList

/-- Python `str.lower()`: lower-case every character (stated over the
character list so that it evaluates by kernel reduction). -/
def lowerStr (s : String) : String :=
  String.mk (s.toList.map Char.toLower)

/-! ### Trigger Detector (`voice_listener.py`, `WakeWordListener`)

`WakeWordListener.__init__` lower-cases the wake word; both
`_audio_callback_online` (lines 77-96) and the finalized-result branch of
`_listen_offline_worker` (lines 131-146) lower-case the recognized text,
test containment of the wake word, increment `consecutive_detections` on a
match, fire the callback and reset the counter once the confirmation count
is reached, and reset the counter on a non-match.  `detectStep` embeds that
shared counting logic for one completed utterance. -/

/-- `self.wake_word in text.lower()` with the constructor's
`wake_word.lower()` normalization applied, so matching is case-insensitive
in both arguments as in the source. -/
def wakeMatch (wake text : String) : Bool :=
  strContains (lowerStr wake) (lowerStr text)

/-- One completed utterance processed by the wake-word listener: returns the
new `consecutive_detections` value and whether the callback fired. -/
def detectStep (wake : String) (confirmationCount ctr : Nat) (text : String) : Nat × Bool :=
  if wakeMatch wake text then
    if confirmationCount ≤ ctr + 1 then (0, true) else (ctr + 1, false)
  else (0, false)

/-- Fold `detectStep` over a sequence of completed utterances, returning the
final counter and the number of callback firings. -/
def detectRun (wake : String) (confirmationCount : Nat) : Nat → List String → Nat × Nat
  | ctr, [] => (ctr, 0)
  | ctr, t :: ts =>
    let s := detectStep wake confirmationCount ctr t
    let r := detectRun wake confirmationCount s.1 ts
    (r.1, (if s.2 then 1 else 0) + r.2)

/-- Number of callback firings over a sequence of utterances. -/
def detectFires (wake : String) (confirmationCount ctr : Nat) (ts : List String) : Nat :=
  (detectRun wake confirmationCount ctr ts).2

/-! ### Execution Engine (`execution_engine.py`) -/

/-- The OS side-effect primitives the dispatcher can invoke
(`os.startfile`, `subprocess.Popen(..., shell=True)`, `webbrowser.open`,
`subprocess.run(['taskkill', ...])`). -/
inductive OSCall where
  | startfile (path : String)
  | popen (cmd : String)
  | webOpen (url : String)
  | taskkill (image : String)
  deriving DecidableEq

/-- Behaviour of the OS collaborators: the pure queries `os.path.exists` /
`os.path.isdir`, and for each side-effecting primitive either normal return
(`Except.ok`) or a raised exception carrying its message (`Except.error`). -/
structure OSBehaviour where
  pathExists : String → Bool
  isDir : String → Bool
  startfile : String → Except String Unit
  popen : String → Except String Unit
  webOpen : String → Except String Unit
  taskkill : String → Except String Unit

/-- A dispatch outcome: the `(success, message)` pair returned to the
caller, together with the list of OS calls the handler made. -/
abbrev ExecResult := (Bool × String) × List OSCall

/-- `ExecutionEngine._execute_app` (lines 151-175): launch by path if it
exists, else launch by name through the shell; its `try/except` converts a
raised exception into a failed result. -/
def execute_app (os : OSBehaviour) (app_path response : String) : ExecResult :=
  if os.pathExists app_path then
    match os.startfile app_path with
    | .ok _ => ((true, response), [.startfile app_path])
    | .error e => ((false, "Failed to open application: " ++ e), [.startfile app_path])
  else
    match os.popen app_path with
    | .ok _ => ((true, response), [.popen app_path])
    | .error e => ((false, "Failed to open application: " ++ e), [.popen app_path])

/-- `ExecutionEngine._execute_folder` (lines 177-196). -/
def execute_folder (os : OSBehaviour) (folder_path response : String) : ExecResult :=
  if os.pathExists folder_path && os.isDir folder_path then
    match os.startfile folder_path with
    | .ok _ => ((true, response), [.startfile folder_path])
    | .error e => ((false, "Failed to open folder: " ++ e), [.startfile folder_path])
  else ((false, "Folder not found: " ++ folder_path), [])

/-- `ExecutionEngine._execute_system` (lines 198-220): the literal payload
`"exit"` succeeds with no OS call; any other payload is dispatched to the
OS shell. -/
def execute_system (os : OSBehaviour) (command response : String) : ExecResult :=
  if command = "exit" then ((true, response), [])
  else
    match os.popen command with
    | .ok _ => ((true, response), [.popen command])
    | .error e => ((false, "System command failed: " ++ e), [.popen command])

/-- `ExecutionEngine._execute_web` (lines 222-239). -/
def execute_web (os : OSBehaviour) (url response : String) : ExecResult :=
  match os.webOpen url with
  | .ok _ => ((true, response), [.webOpen url])
  | .error e => ((false, "Failed to open browser: " ++ e), [.webOpen url])

/-- `ExecutionEngine._execute_close_app` (lines 241-261). -/
def execute_close_app (os : OSBehaviour) (app_name response : String) : ExecResult :=
  let image := if app_name.endsWith ".exe" then app_name else app_name ++ ".exe"
  match os.taskkill image with
  | .ok _ => ((true, response), [.taskkill image])
  | .error e => ((false, "Failed to close application: " ++ e), [.taskkill image])

/-- The body of `ExecutionEngine._execute_command` inside its outer `try`
(lines 118-144): the kind-keyed if/elif chain.  Each per-kind handler
catches collaborator exceptions itself, so every branch is an `Except.ok`;
the result type records that an exception escaping this body would be an
`Except.error`. -/
def execute_command_body (os : OSBehaviour) (cmd_type payload response : String) :
    Except String ExecResult :=
  if cmd_type = "app" then Except.ok (execute_app os payload response)
  else if cmd_type = "folder" then Except.ok (execute_folder os payload response)
  else if cmd_type = "system" then Except.ok (execute_system os payload response)
  else if cmd_type = "web" then Except.ok (execute_web os payload response)
  else if cmd_type = "close_app" then Except.ok (execute_close_app os payload response)
  else if cmd_type = "info" then Except.ok ((true, response), [])
  else if cmd_type = "error" then Except.ok ((false, response), [])
  else if cmd_type = "unknown" then Except.ok ((false, response), [])
  else Except.ok ((false, "Unknown command type: " ++ cmd_type), [])

/-- `ExecutionEngine._execute_command` (lines 104-149): the dispatcher, with
its boundary `except Exception` that converts any exception escaping the
kind-keyed body into `(False, "Execution failed: <cause>")`. -/
def execute_command (os : OSBehaviour) (cmd_type payload response : String) : ExecResult :=
  match execute_command_body os cmd_type payload response with
  | Except.ok v => v
  | Except.error e => ((false, "Execution failed: " ++ e), [])

/-- `ExecutionEngine.execute_immediate` (lines 90-102): the synchronous
entry point, delegating to the shared dispatcher. -/
def execute_immediate (os : OSBehaviour) (cmd_type payload response : String) : ExecResult :=
  execute_command os cmd_type payload response

/-- A queued request: `(cmd_type, exec_data, response)` as placed on
`self.command_queue`. -/
abbrev QItem := String × String × String

/-- State of an `ExecutionEngine` instance: the bounded FIFO queue, its
capacity, the `is_running` flag, and a count of worker threads created (a
thread object is created exactly when `threading.Thread(...)` runs in
`start`). -/
structure EngineState where
  queue : List QItem
  maxsize : Nat
  running : Bool
  workersCreated : Nat
  deriving DecidableEq

/-- `ExecutionEngine.__init__` with the default `max_queue_size = 10`. -/
def initEngine : EngineState :=
  { queue := [], maxsize := 10, running := false, workersCreated := 0 }

/-- `ExecutionEngine.start` (lines 35-41): guarded by `is_running`; when not
running it sets the flag and creates and starts one worker thread. -/
def engineStart (s : EngineState) : EngineState :=
  if s.running then s
  else { s with running := true, workersCreated := s.workersCreated + 1 }

/-- `ExecutionEngine.execute` (lines 70-88): `Queue.put(..., block=False)`
appends when the bounded queue has free space (a `maxsize` of 0 means
unbounded in the queue primitive) and raises `Full` otherwise, which the
`except` turns into a `False` return with the queue unchanged. -/
def engineEnqueue (s : EngineState) (item : QItem) : EngineState × Bool :=
  if 0 < s.maxsize ∧ s.maxsize ≤ s.queue.length then (s, false)
  else ({ s with queue := s.queue ++ [item] }, true)

/-- One iteration of `ExecutionEngine._worker` (lines 50-68) while the
engine is running: pop the head of the queue and run it through the shared
dispatcher, or do nothing (sleep) when the queue is empty or the engine is
stopped. -/
def workerStep (os : OSBehaviour) (s : EngineState) : EngineState × Option ExecResult :=
  if s.running then
    match s.queue with
    | [] => (s, none)
    | item :: rest =>
      ({ s with queue := rest }, some (execute_command os item.1 item.2.1 item.2.2))
  else (s, none)

/-- An all-succeeding OS collaborator behaviour, used to instantiate
theorems at concrete inputs. -/
def osOk : OSBehaviour :=
  { pathExists := fun _ => false
    isDir := fun _ => false
    startfile := fun _ => Except.ok ()
    popen := fun _ => Except.ok ()
    webOpen := fun _ => Except.ok ()
    taskkill := fun _ => Except.ok () }

/-! ### Command Orchestrator (`main.py`, class `DeskAI`) -/

/-- The pipeline stages of `DeskAI._process_command`, recorded in order so
theorems can state which stages a pass ran. -/
inductive Stage where
  | recognize
  | exitCheck
  | classify
  | resolve
  | execute
  | respond
  deriving DecidableEq

/-- Collaborator behaviour for one pipeline pass: the Speech Recognizer
result (`""` models the falsy no-speech result), the Intent Classifier
(only its `intent` field matters to the orchestrator's control flow), the
Action Resolver (`CommandMapper.map_and_execute`, returning
`(cmd_type, exec_data, response_message)`), and the OS collaborators used
by the Execution Engine. -/
structure PipeEnv where
  recognized : String
  parseIntent : String → String
  mapAction : String → String × String × String
  os : OSBehaviour

/-- Observable pipeline state: the `should_exit` flag, the sequence of
messages spoken through the Speech Synthesizer, and the trace of pipeline
stages run. -/
structure PState where
  should_exit : Bool
  spoken : List String
  stages : List Stage
  deriving DecidableEq

/-- The exit keywords checked by `_process_command` (line 166). -/
def exitKeywords : List String := ["exit", "quit", "stop listening", "goodbye"]

/-- `any(word in recognized_text.lower() for word in [...])`. -/
def containsExitKeyword (text : String) : Bool :=
  exitKeywords.any (fun w => strContains w (lowerStr text))

/-- `DeskAI._process_command` (lines 135-207): recognize, exit check,
classify, resolve, execute (through the shared dispatcher), respond, and
the post-check for the literal exit action. -/
def process_command (env : PipeEnv) (s : PState) : PState :=
  let s := { s with stages := s.stages ++ [Stage.recognize] }
  if env.recognized = "" then
    { s with spoken := s.spoken ++ ["I didn\u0027t hear anything. Please try again."] }
  else
    let s := { s with stages := s.stages ++ [Stage.exitCheck] }
    if containsExitKeyword env.recognized then
      { s with spoken := s.spoken ++ ["Goodbye! Shutting down."], should_exit := true }
    else
      let s := { s with stages := s.stages ++ [Stage.classify] }
      if env.parseIntent env.recognized = "unknown" then
        { s with spoken := s.spoken ++ ["Sorry, I didn\u0027t understand that command."] }
      else
        let s := { s with stages := s.stages ++ [Stage.resolve] }
        let act := env.mapAction env.recognized
        let s := { s with stages := s.stages ++ [Stage.execute] }
        let res := execute_immediate env.os act.1 act.2.1 act.2.2
        let feedback := if res.1.1 then res.1.2 else "Sorry, " ++ res.1.2
        let s := { s with stages := s.stages ++ [Stage.respond],
                          spoken := s.spoken ++ [feedback] }
        if act.1 = "system" ∧ act.2.1 = "exit" then { s with should_exit := true } else s

/-- The orchestrator state visible to the trigger callback: the
`is_processing` reentrancy guard, a count of completed pipeline passes, and
the rest of the state (abstracted so a pass may be any transformation). -/
structure OrchState (S : Type) where
  is_processing : Bool
  passes : Nat
  inner : S

/-- `DeskAI._wake_word_detected_callback` (lines 108-133), parametric in the
pipeline pass: if `is_processing` is set, return immediately; otherwise set
`is_processing`, run one pass (which may end normally, exit a stage early,
or raise — the `except` swallows the exception either way), and clear
`is_processing` in the `finally` block on every exit path. -/
def wake_word_detected_callback {S E : Type} (pipeline : S → S × Option E)
    (st : OrchState S) : OrchState S :=
  if st.is_processing then st
  else
    let r := pipeline st.inner
    { is_processing := false, passes := st.passes + 1, inner := r.1 }

/-- The condition of the `while` loop in `DeskAI.start` (line 240):
`self.is_running and not self.should_exit`. -/
def runLoopCond (running should_exit : Bool) : Bool :=
  running && !should_exit

/-- The four teardown calls made by `DeskAI.stop` (lines 268-279), in
source order. -/
inductive Teardown where
  | wakeListener
  | executor
  | stt
  | tts
  deriving DecidableEq

/-- Behaviour of the four teardown collaborator calls: normal return or a
raised exception. -/
structure TeardownBehaviour where
  wakeStop : Except String Unit
  executorStop : Except String Unit
  sttCleanup : Except String Unit
  ttsCleanup : Except String Unit

/-- Orchestrator state observed by `stop()`: the `is_running` flag, the
teardown calls actually made, and whether the logger was closed. -/
structure MainState where
  is_running : Bool
  teardownCalls : List Teardown
  loggerClosed : Bool
  deriving DecidableEq

/-- The teardown calls made by the single `try` block of `DeskAI.stop`
(lines 268-282): the calls run in sequence, and the first raised exception
aborts the rest (it is caught by the one `except` covering all four). -/
def stopTeardown (tb : TeardownBehaviour) : List Teardown :=
  Teardown.wakeListener ::
    match tb.wakeStop with
    | .error _ => []
    | .ok _ =>
      Teardown.executor ::
        match tb.executorStop with
        | .error _ => []
        | .ok _ =>
          Teardown.stt ::
            match tb.sttCleanup with
            | .error _ => []
            | .ok _ => [Teardown.tts]

/-- `DeskAI.stop` (lines 255-290): no-op when not `is_running`; otherwise
clear `is_running`, run the teardown sequence (one shared exception guard),
then close the logger. -/
def deskStop (tb : TeardownBehaviour) (s : MainState) : MainState :=
  if s.is_running then
    { is_running := false
      teardownCalls := s.teardownCalls ++ stopTeardown tb
      loggerClosed := true }
  else s

/-! ### Helper lemmas -/

/-- Over a block of utterances that all match the wake word, starting from a
counter below the confirmation count, the listener fires once per completed
group of `confirmationCount` matches and the counter ends at the remainder. -/
theorem detectRun_matches (wake : String) (cc : Nat) (hcc : 1 ≤ cc) :
    ∀ (ts : List String) (ctr : Nat), ctr < cc →
      (∀ t ∈ ts, wakeMatch wake t = true) →
      detectRun wake cc ctr ts = ((ctr + ts.length) % cc, (ctr + ts.length) / cc) := by
  intro ts
  induction ts with
  | nil =>
    intro ctr hctr _
    simp [detectRun, Nat.mod_eq_of_lt hctr, Nat.div_eq_of_lt hctr]
  | cons t ts ih =>
    intro ctr hctr hall
    have ht : wakeMatch wake t = true := hall t (List.mem_cons_self t ts)
    have hts : ∀ u ∈ ts, wakeMatch wake u = true :=
      fun u hu => hall u (List.mem_cons_of_mem t hu)
    by_cases hge : cc ≤ ctr + 1
    · have hstep : detectStep wake cc ctr t = (0, true) := by
        simp [detectStep, ht, hge]
      have h0 : (0 : Nat) < cc := hcc
      rw [detectRun, hstep]
      simp only [ih 0 h0 hts]
      have h1 : ctr + (t :: ts).length = ts.length + cc := by
        simp only [List.length_cons]
        omega
      rw [h1, Nat.add_mod_right, Nat.add_div_right _ h0]
      simp [Nat.add_comm]
    · have hstep : detectStep wake cc ctr t = (ctr + 1, false) := by
        simp [detectStep, ht, hge]
      have hlt : ctr + 1 < cc := by omega
      rw [detectRun, hstep]
      simp only [ih (ctr + 1) hlt hts]
      have h1 : ctr + 1 + ts.length = ctr + (t :: ts).length := by
        simp only [List.length_cons]
        omega
      rw [h1]
      simp

/-- `detectRun` splits over list append: counters thread through, firing
counts add. -/
theorem detectRun_append (wake : String) (cc : Nat) (xs ys : List String) :
    ∀ ctr : Nat,
      detectRun wake cc ctr (xs ++ ys) =
        ((detectRun wake cc (detectRun wake cc ctr xs).1 ys).1,
         (detectRun wake cc ctr xs).2 +
           (detectRun wake cc (detectRun wake cc ctr xs).1 ys).2) := by
  induction xs with
  | nil => intro ctr; simp [detectRun]
  | cons x xs ih =>
    intro ctr
    simp only [List.cons_append, detectRun, List.append_eq]
    rw [ih]
    simp [Nat.add_assoc]

/-! ### Claim theorems -/

/-- C1: if the `Processing` flag is already true the trigger callback
returns immediately with no state change and no pipeline pass; otherwise it
runs exactly one pipeline pass (whatever that pass does to the state,
including raising internally) and `Processing` is false on every exit path,
so at most one pass is ever recorded per invocation. -/
theorem wake_callback_reentrancy {S E : Type} (pipeline : S → S × Option E)
    (st : OrchState S) :
    (st.is_processing = true → wake_word_detected_callback pipeline st = st) ∧
    (st.is_processing = false →
      (wake_word_detected_callback pipeline st).is_processing = false ∧
      (wake_word_detected_callback pipeline st).passes = st.passes + 1 ∧
      (wake_word_detected_callback pipeline st).inner = (pipeline st.inner).1) := by
  constructor
  · intro h
    simp [wake_word_detected_callback, h]
  · intro h
    simp [wake_word_detected_callback, h]

/-- Witness for C1 at a concrete state and pipeline (the pipeline here both
modifies the state and raises). -/
theorem wake_callback_reentrancy_witness :
    wake_word_detected_callback (fun n : Nat => (n + 1, some "boom")) ⟨true, 4, 7⟩ =
      (⟨true, 4, 7⟩ : OrchState Nat) ∧
    (wake_word_detected_callback (fun n : Nat => (n + 1, some "boom")) ⟨false, 4, 7⟩).passes = 5 :=
  ⟨(wake_callback_reentrancy (fun n : Nat => (n + 1, some "boom")) ⟨true, 4, 7⟩).1 rfl,
   ((wake_callback_reentrancy (fun n : Nat => (n + 1, some "boom")) ⟨false, 4, 7⟩).2 rfl).2.1⟩

/-- C2: for every confirmation count `cc ≥ 1`, a matching utterance
increments the counter (resetting it to 0 exactly when it fires, which
happens exactly when the incremented counter reaches `cc`), a non-matching
utterance resets it to 0 without firing, a block of consecutive matches
from a reset counter fires once per completed group of `cc`, and the
specific sequence of `cc - 1` matches, one non-match, then `cc` matches
fires exactly once. -/
theorem wake_confirmation_correct (wake : String) (cc : Nat) (hcc : 1 ≤ cc)
    (pre post : List String) (nm : String)
    (hpre : pre.length = cc - 1) (hpreM : ∀ t ∈ pre, wakeMatch wake t = true)
    (hnm : wakeMatch wake nm = false)
    (hpost : post.length = cc) (hpostM : ∀ t ∈ post, wakeMatch wake t = true) :
    (∀ (ctr : Nat) (t : String), wakeMatch wake t = true →
      detectStep wake cc ctr t =
        (if cc ≤ ctr + 1 then 0 else ctr + 1, decide (cc ≤ ctr + 1))) ∧
    (∀ (ctr : Nat) (t : String), wakeMatch wake t = false →
      detectStep wake cc ctr t = (0, false)) ∧
    (∀ ms : List String, (∀ t ∈ ms, wakeMatch wake t = true) →
      detectFires wake cc 0 ms = ms.length / cc) ∧
    detectFires wake cc 0 (pre ++ nm :: post) = 1 := by
  have h0 : (0 : Nat) < cc := hcc
  refine ⟨?_, ?_, ?_, ?_⟩
  · intro ctr t ht
    by_cases h : cc ≤ ctr + 1 <;> simp [detectStep, ht, h]
  · intro ctr t ht
    simp [detectStep, ht]
  · intro ms hms
    unfold detectFires
    rw [detectRun_matches wake cc hcc ms 0 h0 hms]
    simp
  · unfold detectFires
    have hpre1 : detectRun wake cc 0 pre = (cc - 1, 0) := by
      rw [detectRun_matches wake cc hcc pre 0 h0 hpreM, Nat.zero_add, hpre,
        Nat.mod_eq_of_lt (by omega), Nat.div_eq_of_lt (by omega)]
    have hpost1 : detectRun wake cc 0 post = (0, 1) := by
      rw [detectRun_matches wake cc hcc post 0 h0 hpostM, Nat.zero_add, hpost,
        Nat.mod_self, Nat.div_self h0]
    rw [detectRun_append]
    simp [hpre1, detectRun, detectStep, hnm, hpost1]

/-- Witness for C2 with wake word `"desk"`, confirmation count 2, one match,
one non-match, then two matches. -/
theorem wake_confirmation_correct_witness :
    detectFires "desk" 2 0 (["hey desk"] ++ "hello" :: ["desk", "the desk please"]) = 1 :=
  (wake_confirmation_correct "desk" 2 (by decide) ["hey desk"] ["desk", "the desk please"]
    "hello" (by decide) (by decide) (by decide) (by decide) (by decide)).2.2.2

/-- C3: an `ActionDescriptor` of kind `error` or `unknown` never reaches the
OS collaborators: both the synchronous entry point and the queued worker
path short-circuit these kinds into a failed result carrying the original
message unchanged, with no OS call made. -/
theorem error_unknown_short_circuit (os : OSBehaviour) (payload response : String)
    (rest : List QItem) (n w : Nat) :
    execute_immediate os "error" payload response = ((false, response), []) ∧
    execute_immediate os "unknown" payload response = ((false, response), []) ∧
    workerStep os ⟨("error", payload, response) :: rest, n, true, w⟩ =
      (⟨rest, n, true, w⟩, some ((false, response), [])) ∧
    workerStep os ⟨("unknown", payload, response) :: rest, n, true, w⟩ =
      (⟨rest, n, true, w⟩, some ((false, response), [])) := by
  refine ⟨rfl, rfl, rfl, rfl⟩

/-- C4: enqueue is non-blocking (it is a total function of the state); on a
queue already at its (positive) capacity it returns `false` and leaves the
queue unchanged — in particular with exactly `maxsize` items queued — and
with free space it appends the item and returns `true`; the constructor's
default capacity is 10. -/
theorem enqueue_bounded (s : EngineState) (item : QItem) :
    (0 < s.maxsize → s.maxsize ≤ s.queue.length →
      engineEnqueue s item = (s, false) ∧
      (engineEnqueue s item).1.queue.length = s.queue.length) ∧
    (s.queue.length < s.maxsize →
      engineEnqueue s item = ({ s with queue := s.queue ++ [item] }, true)) ∧
    initEngine.maxsize = 10 := by
  refine ⟨?_, ?_, rfl⟩
  · intro h1 h2
    have hc : 0 < s.maxsize ∧ s.maxsize ≤ s.queue.length := ⟨h1, h2⟩
    rw [engineEnqueue, if_pos hc]
    exact ⟨rfl, rfl⟩
  · intro h
    have hc : ¬(0 < s.maxsize ∧ s.maxsize ≤ s.queue.length) := by omega
    rw [engineEnqueue, if_neg hc]

/-- Witness for C4: a queue of capacity 2 holding 2 items rejects a third
and keeps exactly 2 items; an empty queue of capacity 2 accepts an item. -/
theorem enqueue_bounded_witness :
    engineEnqueue ⟨[("info", "a", "a"), ("info", "b", "b")], 2, false, 0⟩ ("info", "c", "c") =
      (⟨[("info", "a", "a"), ("info", "b", "b")], 2, false, 0⟩, false) ∧
    (engineEnqueue ⟨[("info", "a", "a"), ("info", "b", "b")], 2, false, 0⟩
      ("info", "c", "c")).1.queue.length = 2 ∧
    engineEnqueue ⟨[], 2, false, 0⟩ ("info", "c", "c") =
      (⟨[("info", "c", "c")], 2, false, 0⟩, true) :=
  ⟨((enqueue_bounded ⟨[("info", "a", "a"), ("info", "b", "b")], 2, false, 0⟩
      ("info", "c", "c")).1 (by decide) (by decide)).1,
   ((enqueue_bounded ⟨[("info", "a", "a"), ("info", "b", "b")], 2, false, 0⟩
      ("info", "c", "c")).1 (by decide) (by decide)).2,
   (enqueue_bounded ⟨[], 2, false, 0⟩ ("info", "c", "c")).2.1 (by decide)⟩

/-- C5: the dispatcher never propagates an exception.  For every kind,
payload, response and OS collaborator behaviour (including raising), the
kind-keyed body returns normally (the per-kind handlers contain all
collaborator failures) and the dispatcher passes its value through; and had
an exception escaped the body, the dispatcher boundary would convert it
into `(False, "Execution failed: <cause>")`. -/
theorem dispatcher_containment (os : OSBehaviour) (cmd_type payload response : String) :
    (∃ v, execute_command_body os cmd_type payload response = Except.ok v ∧
      execute_immediate os cmd_type payload response = v) ∧
    (∀ e, execute_command_body os cmd_type payload response = Except.error e →
      execute_immediate os cmd_type payload response =
        ((false, "Execution failed: " ++ e), [])) := by
  constructor
  · have hok : ∃ v, execute_command_body os cmd_type payload response = Except.ok v := by
      unfold execute_command_body
      split_ifs <;> exact ⟨_, rfl⟩
    obtain ⟨v, hv⟩ := hok
    refine ⟨v, hv, ?_⟩
    unfold execute_immediate execute_command
    rw [hv]
  · intro e he
    unfold execute_immediate execute_command
    rw [he]

/-- Witness for C5 at a concrete kind and OS behaviour. -/
theorem dispatcher_containment_witness :
    ∃ v, execute_command_body osOk "web" "https://example.org" "Opening" = Except.ok v ∧
      execute_immediate osOk "web" "https://example.org" "Opening" = v :=
  (dispatcher_containment osOk "web" "https://example.org" "Opening").1

/-- C6: for kind `system`, the literal payload `"exit"` succeeds with the
descriptor's message and no OS call; any other payload is dispatched to the
OS shell exactly once and succeeds exactly when the shell dispatch does not
raise (returning the descriptor's message on success and the failure
message on a raise). -/
theorem system_kind_dispatch (os : OSBehaviour) (payload response : String) :
    execute_immediate os "system" "exit" response = ((true, response), []) ∧
    (payload ≠ "exit" → os.popen payload = Except.ok () →
      execute_immediate os "system" payload response =
        ((true, response), [OSCall.popen payload])) ∧
    (∀ e, payload ≠ "exit" → os.popen payload = Except.error e →
      execute_immediate os "system" payload response =
        ((false, "System command failed: " ++ e), [OSCall.popen payload])) := by
  have hbody : ∀ p : String, execute_immediate os "system" p response =
      execute_system os p response := fun _ => rfl
  refine ⟨rfl, ?_, ?_⟩
  · intro hp hok
    rw [hbody, execute_system, if_neg hp, hok]
  · intro e hp herr
    rw [hbody, execute_system, if_neg hp, herr]

/-- Witness for C6: payload `"dir"` with an all-succeeding shell. -/
theorem system_kind_dispatch_witness :
    execute_immediate osOk "system" "dir" "Running dir" =
      ((true, "Running dir"), [OSCall.popen "dir"]) :=
  (system_kind_dispatch osOk "dir" "Running dir").2.1 (by decide) rfl

/-- C9: `ExecutionEngine.start` is guarded by `is_running`: any number
`n ≥ 1` of consecutive calls produces the same end state as a single call,
and at most one worker thread is ever created beyond those already
existing. -/
theorem start_noop_iterated (s : EngineState) (n : Nat) (hn : 1 ≤ n) :
    engineStart^[n] s = engineStart s ∧
    (engineStart^[n] s).workersCreated ≤ s.workersCreated + 1 := by
  have hidem : ∀ t, engineStart (engineStart t) = engineStart t := by
    intro t
    by_cases h : t.running <;> simp [engineStart, h]
  have hiter : ∀ m : Nat, engineStart^[m + 1] s = engineStart s := by
    intro m
    induction m with
    | zero => simp
    | succ k ih => rw [Function.iterate_succ_apply', ih, hidem]
  obtain ⟨m, rfl⟩ : ∃ m, n = m + 1 := ⟨n - 1, by omega⟩
  refine ⟨hiter m, ?_⟩
  rw [hiter m]
  by_cases h : s.running <;> simp [engineStart, h]

/-- Witness for C9: three consecutive starts on a fresh engine create
exactly one worker and equal a single start. -/
theorem start_noop_iterated_witness :
    engineStart^[3] initEngine = engineStart initEngine ∧
    (engineStart^[3] initEngine).workersCreated ≤ initEngine.workersCreated + 1 :=
  start_noop_iterated initEngine 3 (by decide)

/-- C10: the dispatcher is total over command kinds: any kind outside the
eight recognized ones makes no OS call and returns the failed result
`(false, "Unknown command type: <kind>")` instead of raising. -/
theorem unknown_kind_total (os : OSBehaviour) (cmd_type payload response : String)
    (hk : cmd_type ∉ ["app", "folder", "system", "web", "close_app", "info",
      "error", "unknown"]) :
    execute_immediate os cmd_type payload response =
      ((false, "Unknown command type: " ++ cmd_type), []) := by
  simp only [List.mem_cons, List.not_mem_nil, or_false, not_or] at hk
  obtain ⟨h1, h2, h3, h4, h5, h6, h7, h8⟩ := hk
  simp [execute_immediate, execute_command, execute_command_body,
    h1, h2, h3, h4, h5, h6, h7, h8]

/-- Witness for C10 at the unrecognized kind `"bogus"`. -/
theorem unknown_kind_total_witness :
    execute_immediate osOk "bogus" "x" "y" =
      ((false, "Unknown command type: " ++ "bogus"), []) :=
  unknown_kind_total osOk "bogus" "x" "y" (by decide)

/-- C7: when the recognized text is non-empty and contains an exit keyword,
the pipeline pass speaks the farewell, sets `should_exit`, and ends after
the recognize and exit-check stages — classify, resolve, execute and
respond never run — and the orchestrator's run-loop condition is already
false, so the loop exits without another iteration. -/
theorem exit_keyword_short_circuits (env : PipeEnv) (s : PState) (running : Bool)
    (hne : env.recognized ≠ "") (hex : containsExitKeyword env.recognized = true) :
    process_command env s =
      { should_exit := true
        spoken := s.spoken ++ ["Goodbye! Shutting down."]
        stages := s.stages ++ [Stage.recognize, Stage.exitCheck] } ∧
    runLoopCond running (process_command env s).should_exit = false := by
  have h1 : process_command env s =
      { should_exit := true
        spoken := s.spoken ++ ["Goodbye! Shutting down."]
        stages := s.stages ++ [Stage.recognize, Stage.exitCheck] } := by
    simp [process_command, hne, hex]
  refine ⟨h1, ?_⟩
  rw [h1]
  simp [runLoopCond]

/-- Witness for C7: recognized text `"goodbye"` on a fresh pipeline state. -/
theorem exit_keyword_short_circuits_witness :
    process_command
        ⟨"goodbye", fun _ => "unknown", fun _ => ("info", "", ""), osOk⟩
        ⟨false, [], []⟩ =
      { should_exit := true
        spoken := [] ++ ["Goodbye! Shutting down."]
        stages := [] ++ [Stage.recognize, Stage.exitCheck] } ∧
    runLoopCond true
      (process_command
        ⟨"goodbye", fun _ => "unknown", fun _ => ("info", "", ""), osOk⟩
        ⟨false, [], []⟩).should_exit = false :=
  exit_keyword_short_circuits
    ⟨"goodbye", fun _ => "unknown", fun _ => ("info", "", ""), osOk⟩
    ⟨false, [], []⟩ true (by decide) (by decide)

/-- C8 counterexample: the claim that each teardown call in `DeskAI.stop` is
individually wrapped is false — all four sit in one `try` block, so when
the Trigger Detector teardown raises, the Execution Engine teardown (and
the two after it) never run. -/
theorem stop_teardown_not_isolated :
    (deskStop ⟨Except.error "boom", Except.ok (), Except.ok (), Except.ok ()⟩
        ⟨true, [], false⟩).teardownCalls = [Teardown.wakeListener] ∧
    Teardown.executor ∉
      (deskStop ⟨Except.error "boom", Except.ok (), Except.ok (), Except.ok ()⟩
        ⟨true, [], false⟩).teardownCalls := by
  decide

/-- C8 (amended): `stop()` is a no-op when not running and is idempotent;
when running it clears the running flag, runs the teardown sequence inside
a single exception guard — so a raising teardown is caught (the call never
propagates and the logger is still closed) but the teardowns after it are
skipped — and when no teardown raises, all four run in source order:
Trigger Detector, Execution Engine, Speech Recognizer, Speech Synthesizer. -/
theorem stop_idempotent_guarded (tb : TeardownBehaviour) (s : MainState) :
    (s.is_running = false → deskStop tb s = s) ∧
    deskStop tb (deskStop tb s) = deskStop tb s ∧
    (s.is_running = true →
      (deskStop tb s).is_running = false ∧
      (deskStop tb s).loggerClosed = true ∧
      (deskStop tb s).teardownCalls = s.teardownCalls ++ stopTeardown tb) ∧
    (tb.wakeStop = Except.ok () → tb.executorStop = Except.ok () →
      tb.sttCleanup = Except.ok () →
      stopTeardown tb =
        [Teardown.wakeListener, Teardown.executor, Teardown.stt, Teardown.tts]) := by
  refine ⟨?_, ?_, ?_, ?_⟩
  · intro h
    simp [deskStop, h]
  · by_cases h : s.is_running <;> simp [deskStop, h]
  · intro h
    simp [deskStop, h]
  · intro h1 h2 h3
    simp [stopTeardown, h1, h2, h3]

/-- Witness for C8 at a concrete running state with all-succeeding
teardowns. -/
theorem stop_idempotent_guarded_witness :
    deskStop ⟨Except.ok (), Except.ok (), Except.ok (), Except.ok ()⟩
        ⟨false, [], false⟩ = ⟨false, [], false⟩ ∧
    (deskStop ⟨Except.ok (), Except.ok (), Except.ok (), Except.ok ()⟩
        ⟨true, [], false⟩).teardownCalls =
      [] ++ stopTeardown ⟨Except.ok (), Except.ok (), Except.ok (), Except.ok ()⟩ ∧
    stopTeardown ⟨Except.ok (), Except.ok (), Except.ok (), Except.ok ()⟩ =
      [Teardown.wakeListener, Teardown.executor, Teardown.stt, Teardown.tts] :=
  ⟨(stop_idempotent_guarded ⟨Except.ok (), Except.ok (), Except.ok (), Except.ok ()⟩
      ⟨false, [], false⟩).1 rfl,
   ((stop_idempotent_guarded ⟨Except.ok (), Except.ok (), Except.ok (), Except.ok ()⟩
      ⟨true, [], false⟩).2.2.1 rfl).2.2,
   (stop_idempotent_guarded ⟨Except.ok (), Except.ok (), Except.ok (), Except.ok ()⟩
      ⟨true, [], false⟩).2.2.2 rfl rfl rfl⟩

end DeskAI
